import Mathlib

/-! Verification of the images client (src/images.go).

Shallow embedding of the image-resource client: the request descriptions
built by `ListImages`, `ImageById`, `CreateNewImage`, `UploadImageFile`
and `DeleteImageById`, the stream-producer `streamFile` as an event
trace, the `Location`-header id extraction, and the re-authenticating
retry wrapper (modelled from the spec, since its code lives outside this
repository slice).
-/

namespace Images

/-- Errors are opaque values; only identity matters to the client logic. -/
abbrev Err := String

/-- The slice of `os.FileInfo` the upload path uses: the stat'd size. -/
structure FileInfo where
  size : Int
deriving Repr, DecidableEq

/-- Model of `Link`, a trivial data carrier referenced by `Image`. -/
structure Link where
  href : String
  rel : String
deriving Repr, DecidableEq

/-- Model of `Image`: the JSON (un)marshalling record for an OS image. -/
structure Image where
  created : String := ""
  id : String := ""
  links : List Link := []
  minDisk : Int := 0
  minRam : Int := 0
  name : String := ""
  progress : Int := 0
  status : String := ""
  updated : String := ""
  osDcfDiskConfig : String := ""
deriving Repr, DecidableEq

/-- Model of `NewImage`: the request record for `CreateNewImage`. -/
structure NewImage where
  name : String := ""
  visibility : String := ""
  containerFormat : String := ""
  diskFormat : String := ""
  tags : List String := []
deriving Repr, DecidableEq

/-- The kind of request body handed to `perigee.Request`. -/
inductive ReqBody where
  | empty
  | jsonNewImage (ni : NewImage)
  | pipeReadEnd
deriving Repr, DecidableEq

/-- The request description assembled from a `perigee.Options` value plus
the method and url arguments of a `perigee` call.  `resultsField` names
the JSON field the anonymous `Results` struct decodes from (`none` when
no `Results` target is set). -/
structure Request where
  method : String
  url : String
  headers : List (String × String)
  contentType : Option String
  contentLength : Option Int
  body : ReqBody
  okCodes : List Int
  resultsField : Option String
deriving Repr, DecidableEq

/-- Go's `strings.HasSuffix`: does `s` end with `suffix`? -/
def hasSuffix (s suffix : String) : Bool :=
  List.isSuffixOf suffix.data s.data

/-- Model of `ListImages` (images.go:11-30): chooses the url from the endpoint
suffix and issues a GET decoding the `Images` field. -/
def ListImages (endpoint token : String) : Request :=
  { method := "GET"
    url := if hasSuffix endpoint "v1" then
             endpoint ++ "/images/details"
           else
             endpoint ++ "/images"
    headers := [("X-Auth-Token", token)]
    contentType := Option.none
    contentLength := Option.none
    body := ReqBody.empty
    okCodes := []
    resultsField := some "Images" }

/-- Model of `ImageById` (images.go:32-46): GET of `/images/{id}` decoding the
`Image` field. -/
def ImageById (endpoint token id : String) : Request :=
  { method := "GET"
    url := endpoint ++ "/images/" ++ id
    headers := [("X-Auth-Token", token)]
    contentType := Option.none
    contentLength := Option.none
    body := ReqBody.empty
    okCodes := []
    resultsField := some "Image" }

/-- The POST issued by `CreateNewImage` (images.go:49-61). -/
def CreateNewImage (endpoint token : String) (ni : NewImage) : Request :=
  { method := "POST"
    url := endpoint ++ "/images"
    headers := [("X-Auth-Token", token)]
    contentType := Option.none
    contentLength := Option.none
    body := ReqBody.jsonNewImage ni
    okCodes := [201]
    resultsField := Option.none }

/-- Model of `DeleteImageById` (images.go:156-168): DELETE of `/images/{id}`. -/
def DeleteImageById (endpoint token id : String) : Request :=
  { method := "DELETE"
    url := endpoint ++ "/images/" ++ id
    headers := [("X-Auth-Token", token)]
    contentType := Option.none
    contentLength := Option.none
    body := ReqBody.empty
    okCodes := []
    resultsField := Option.none }

/-- Go's `strings.Split` for a one-character separator, over character
lists: `goSplit c l` cuts `l` at every occurrence of `c`. -/
def goSplit (c : Char) : List Char → List (List Char)
  | [] => [[]]
  | x :: xs =>
    if x = c then
      [] :: goSplit c xs
    else
      match goSplit c xs with
      | [] => [[x]]
      | y :: ys => (x :: y) :: ys

/-- Splitting never returns an empty slice (`strings.Split` semantics). -/
theorem goSplit_ne_nil (c : Char) (l : List Char) : goSplit c l ≠ [] := by
  induction l with
  | nil => simp [goSplit]
  | cons x xs ih =>
    simp only [goSplit]
    by_cases h : x = c
    · simp [h]
    · simp only [h, if_false]
      cases goSplit c xs with
      | nil => simp
      | cons y ys => simp

/-- The expression `locationArr[len(locationArr)-1]` of `CreateNewImage`
(images.go:73-74): the last element of the split of the `Location`
header's path on `/`. -/
def imageIdFromLocationPath (path : String) : String :=
  String.mk ((goSplit '/' path.data).getLastD [])

/-- Splitting distributes over an occurrence of the separator. -/
theorem goSplit_append_cons (c : Char) (l₁ l₂ : List Char) :
    goSplit c (l₁ ++ c :: l₂) = goSplit c l₁ ++ goSplit c l₂ := by
  induction l₁ with
  | nil => simp [goSplit]
  | cons x xs ih =>
    by_cases h : x = c
    · simp [goSplit, h, ih]
    · cases hx : goSplit c xs with
      | nil => exact absurd hx (goSplit_ne_nil c xs)
      | cons y ys =>
        simp only [List.cons_append, goSplit, h, if_false, List.append_eq]
        rw [ih, hx]
        simp

/-- A list free of the separator splits into itself alone. -/
theorem goSplit_of_not_mem (c : Char) (l : List Char) (h : c ∉ l) :
    goSplit c l = [l] := by
  induction l with
  | nil => simp [goSplit]
  | cons x xs ih =>
    simp only [List.mem_cons, not_or] at h
    have hx : ¬ x = c := fun hxc => h.1 (hxc ▸ rfl)
    simp [goSplit, hx, ih h.2]

/-- Appending a final separator appends a final empty segment. -/
theorem goSplit_append_sep (c : Char) (l : List Char) :
    goSplit c (l ++ [c]) = goSplit c l ++ [[]] := by
  simpa [goSplit] using goSplit_append_cons c l []

/-- String append acts on the underlying character lists. -/
theorem string_data_append (a b : String) :
    (a ++ b).data = a.data ++ b.data := by
  cases a
  cases b
  rfl

/-- The last segment after the last separator is the id. -/
theorem imageIdFromLocationPath_append (pre seg : String)
    (h : '/' ∉ seg.data) :
    imageIdFromLocationPath (pre ++ "/" ++ seg) = seg := by
  have hdata : (pre ++ "/" ++ seg).data = pre.data ++ '/' :: seg.data := by
    rw [string_data_append, string_data_append, List.append_assoc]
    rfl
  unfold imageIdFromLocationPath
  rw [hdata, goSplit_append_cons, goSplit_of_not_mem '/' seg.data h,
    List.getLastD_concat]

/-- A trailing separator yields the empty string as the id. -/
theorem imageIdFromLocationPath_trailing (pre : String) :
    imageIdFromLocationPath (pre ++ "/") = "" := by
  have hdata : (pre ++ "/").data = pre.data ++ ['/'] := by
    rw [string_data_append]
  unfold imageIdFromLocationPath
  rw [hdata, goSplit_append_sep, List.getLastD_concat]

/-- A path with no separator yields the whole path as the id. -/
theorem imageIdFromLocationPath_no_sep (path : String)
    (h : '/' ∉ path.data) :
    imageIdFromLocationPath path = path := by
  unfold imageIdFromLocationPath
  rw [goSplit_of_not_mem '/' path.data h]
  cases path
  rfl

/-! The stream producer `streamFile` (images.go:84-106).

`streamFile` is modelled as the sequential event trace of one run: the
chunk writes `io.Copy` performs into the pipe, then the assignment to
the shared slot (`*ppErr = &err` or `*ppErr = nil`), then the deferred
closes, which Go runs on return in LIFO order (`writePipe.Close()`
registered second runs first, `readFrom.Close()` last). -/

/-- One observable event of a `streamFile` run. -/
inductive Ev where
  | write (size : Nat)
  | slotWrite (v : Option Err)
  | closeSink
  | closeSource
deriving Repr, DecidableEq

/-- What `io.Copy(writePipe, readFrom)` did in one run: the sizes of
the successful chunk writes, then its final outcome (`none` when the
source was exhausted, `some e` when a read or write failed). -/
structure CopyBehavior where
  writes : List Nat
  copyErr : Option Err
deriving Repr, DecidableEq

/-- The event trace of one run of `streamFile` given what its
`io.Copy` call did. -/
def streamFile (beh : CopyBehavior) : List Ev :=
  beh.writes.map Ev.write ++
    [Ev.slotWrite beh.copyErr, Ev.closeSink, Ev.closeSource]

def isWrite : Ev → Bool
  | Ev.write _ => true
  | _ => false

def isSlotWrite : Ev → Bool
  | Ev.slotWrite _ => true
  | _ => false

def isCloseSink : Ev → Bool
  | Ev.closeSink => true
  | _ => false

def isCloseSource : Ev → Bool
  | Ev.closeSource => true
  | _ => false

/-- Index of the first event satisfying `p` (the trace length when
none does). -/
def firstIdx (tr : List Ev) (p : Ev → Bool) : Nat := tr.findIdx p

/-- The sequence of values written into the shared error slot during a
trace. -/
def slotWrites (tr : List Ev) : List (Option Err) :=
  tr.filterMap fun e =>
    match e with
    | Ev.slotWrite v => some v
    | _ => Option.none

/-! The upload operation (images.go:108-154) and the retry wrapper. -/

/-- The environment one execution of the upload closure runs against:
the outcomes the operating system and HTTP layer hand back. -/
structure UploadEnv where
  statResult : Except Err FileInfo
  openResult : Except Err Unit
  copyResult : Option Err
  httpResult : Except Err Unit
deriving Repr

/-- Everything one execution of the upload closure did: whether the
file was opened and the pipe created, the request it issued (if any),
the final content of the `streamErr` slot (`none` when the producer
was never launched), and the value the closure returned. -/
structure UploadOutcome where
  fileOpened : Bool
  pipeCreated : Bool
  request : Option Request
  streamErrSlot : Option (Option Err)
  result : Except Err Unit
deriving Repr

/-- The closure `UploadImageFile` hands to `ResponseWithReauth`
(images.go:112-151): stat, open, pipe, launch `streamFile`, PUT.  The
returned `result` is exactly what the closure returns: the `perigee`
outcome, with the `streamErr` slot never read. -/
def uploadImageFileOp (endpoint imageId token : String)
    (env : UploadEnv) : UploadOutcome :=
  match env.statResult with
  | Except.error e =>
    { fileOpened := false, pipeCreated := false, request := Option.none
      streamErrSlot := Option.none, result := Except.error e }
  | Except.ok fi =>
    match env.openResult with
    | Except.error e =>
      { fileOpened := false, pipeCreated := false, request := Option.none
        streamErrSlot := Option.none, result := Except.error e }
    | Except.ok _ =>
      { fileOpened := true
        pipeCreated := true
        request := some
          { method := "PUT"
            url := endpoint ++ "/images/" ++ imageId ++ "/file"
            headers := [("X-Auth-Token", token)]
            contentType := some "application/octet-stream"
            contentLength := some fi.size
            body := ReqBody.pipeReadEnd
            okCodes := [204]
            resultsField := Option.none }
        streamErrSlot := some env.copyResult
        result := env.httpResult }

/-- The outcome of one invocation of a retried operation, as the
wrapper classifies it. -/
inductive OpOutcome (R : Type) where
  | ok (r : R)
  | authErr (e : Err)
  | otherErr (e : Err)

/-- The plain result an `OpOutcome` stands for. -/
def OpOutcome.toResult {R : Type} : OpOutcome R → Except Err R
  | OpOutcome.ok r => Except.ok r
  | OpOutcome.authErr e => Except.error e
  | OpOutcome.otherErr e => Except.error e

/-- Modelled from the spec: `WithReauth` / `ResponseWithReauth` are not
part of this repository slice (only their call sites are), so the Retry
Wrapper is taken from the spec's algorithm: run `op`; on an auth-class
failure refresh once, returning the refresh error if refreshing fails,
otherwise run `op` exactly one more time and return that second
outcome; any other first outcome is returned as is.  `op n` is the
outcome of the `n`-th invocation; the wrapper returns its result
together with how many times `op` ran and how many refreshes were
issued. -/
def withReauth {R : Type} (op : Nat → OpOutcome R)
    (refresh : Except Err Unit) : Except Err R × Nat × Nat :=
  match op 0 with
  | OpOutcome.ok r => (Except.ok r, 1, 0)
  | OpOutcome.otherErr e => (Except.error e, 1, 0)
  | OpOutcome.authErr _ =>
    match refresh with
    | Except.error re => (Except.error re, 1, 1)
    | Except.ok _ => ((op 1).toResult, 2, 1)

/-- Classify a plain result with an auth-class test, the way the
wrapper sees one invocation of a closure. -/
def classify (isAuth : Err → Bool) : Except Err Unit → OpOutcome Unit
  | Except.ok r => OpOutcome.ok r
  | Except.error e =>
    if isAuth e then OpOutcome.authErr e else OpOutcome.otherErr e

/-- Model of `UploadImageFile` (images.go:108-154): runs the upload closure
under `ResponseWithReauth` and returns only the wrapper's error — the
`streamErr` slot is never consulted. -/
def UploadImageFile (endpoint imageId token : String)
    (isAuth : Err → Bool) (envs : Nat → UploadEnv)
    (refresh : Except Err Unit) : Except Err Unit :=
  (withReauth
    (fun n =>
      classify isAuth (uploadImageFileOp endpoint imageId token (envs n)).result)
    refresh).1

/-! Helper lemmas about traces. -/

/-- A block of chunk-write events the predicate rejects shifts
`findIdx` by its length. -/
theorem findIdx_map_write_append (ws : List Nat) (rest : List Ev)
    (p : Ev → Bool) (hp : ∀ n, p (Ev.write n) = false) :
    ((ws.map Ev.write) ++ rest).findIdx p = ws.length + rest.findIdx p := by
  induction ws with
  | nil => simp
  | cons w ws ih =>
    simp only [List.map_cons, List.cons_append, List.findIdx_cons, hp w,
      cond_false, ih, List.length_cons]
    omega

/-- Chunk writes contribute nothing to the slot-write record. -/
theorem slotWrites_map_write (ws : List Nat) :
    slotWrites (ws.map Ev.write) = [] := by
  induction ws with
  | nil => rfl
  | cons w ws ih => simp only [List.map_cons, slotWrites, List.filterMap_cons] at ih ⊢; exact ih

/-- A slot-write event occurs in a `streamFile` trace exactly for the
copy outcome. -/
theorem slotWrite_mem_streamFile (beh : CopyBehavior) (v : Option Err) :
    Ev.slotWrite v ∈ streamFile beh ↔ v = beh.copyErr := by
  simp [streamFile, List.mem_append, List.mem_map]

/-! Claim theorems. -/

/-- C2: in every run of `streamFile`, whether the copy succeeds or
fails, both the source file and the write end of the pipe are closed
before the function returns, and the shared error slot is written
exactly once, with a non-null value exactly when the byte copy failed:
the full slot-write record of the trace is the one-element list holding
the copy outcome. -/
theorem c2_streamFile_closes_and_writes_slot_once (beh : CopyBehavior) :
    Ev.closeSource ∈ streamFile beh ∧
    Ev.closeSink ∈ streamFile beh ∧
    slotWrites (streamFile beh) = [beh.copyErr] ∧
    ((∃ e, Ev.slotWrite (some e) ∈ streamFile beh) ↔
      beh.copyErr.isSome = true) := by
  refine ⟨by simp [streamFile], by simp [streamFile], ?_, ?_⟩
  · simp [streamFile, slotWrites, List.filterMap_append,
      slotWrites_map_write]
  · constructor
    · rintro ⟨e, he⟩
      rw [slotWrite_mem_streamFile] at he
      rw [← he]
      rfl
    · intro h
      cases hv : beh.copyErr with
      | none => rw [hv] at h; cases h
      | some e => exact ⟨e, (slotWrite_mem_streamFile beh (some e)).mpr hv.symm⟩

/-- C2 witness: the guarantees evaluated on one failing run. -/
theorem c2_streamFile_closes_and_writes_slot_once_witness :
    Ev.closeSource ∈ streamFile ⟨[3, 2], some "boom"⟩ ∧
    Ev.closeSink ∈ streamFile ⟨[3, 2], some "boom"⟩ ∧
    slotWrites (streamFile ⟨[3, 2], some "boom"⟩) = [some "boom"] ∧
    ((∃ e, Ev.slotWrite (some e) ∈ streamFile ⟨[3, 2], some "boom"⟩) ↔
      (some "boom" : Option Err).isSome = true) :=
  c2_streamFile_closes_and_writes_slot_once ⟨[3, 2], some "boom"⟩

/-- C3 counterexample: the claim places the close of the sink before
the write of the shared error slot, but the slot assignment runs before
the function returns while the deferred `writePipe.Close()` runs at
return: on the run with one 5-byte chunk and a successful copy, the
slot write is at index 1 and the sink close at index 2, so the sink
close does not happen before the slot is populated. -/
theorem c3_counterexample :
    firstIdx (streamFile ⟨[5], Option.none⟩) isSlotWrite = 1 ∧
    firstIdx (streamFile ⟨[5], Option.none⟩) isCloseSink = 2 ∧
    ¬ firstIdx (streamFile ⟨[5], Option.none⟩) isCloseSink <
        firstIdx (streamFile ⟨[5], Option.none⟩) isSlotWrite := by
  refine ⟨rfl, rfl, ?_⟩
  intro h
  simp [firstIdx, streamFile, List.findIdx, List.findIdx.go, isSlotWrite,
    isCloseSink] at h

/-- C3 (amended): in every run of the Stream Producer, the close of the
sink happens after the producer's last successful write and after (not
before) the shared error slot is populated: the slot write sits right
after the chunk writes, and the sink close right after it. -/
theorem c3_closeSink_after_slot_write (beh : CopyBehavior) :
    (streamFile beh).take beh.writes.length = beh.writes.map Ev.write ∧
    firstIdx (streamFile beh) isSlotWrite = beh.writes.length ∧
    firstIdx (streamFile beh) isCloseSink = beh.writes.length + 1 := by
  refine ⟨?_, ?_, ?_⟩
  · simp [streamFile]
  · simp only [firstIdx, streamFile]
    rw [findIdx_map_write_append beh.writes _ isSlotWrite (fun _ => rfl)]
    simp [List.findIdx_cons, isSlotWrite]
  · simp only [firstIdx, streamFile]
    rw [findIdx_map_write_append beh.writes _ isCloseSink (fun _ => rfl)]
    simp [List.findIdx_cons, isCloseSink]

/-- C3 witness: the amended ordering evaluated on a two-chunk run. -/
theorem c3_closeSink_after_slot_write_witness :
    (streamFile ⟨[4, 1], Option.none⟩).take 2 = [Ev.write 4, Ev.write 1] ∧
    firstIdx (streamFile ⟨[4, 1], Option.none⟩) isSlotWrite = 2 ∧
    firstIdx (streamFile ⟨[4, 1], Option.none⟩) isCloseSink = 3 :=
  c3_closeSink_after_slot_write ⟨[4, 1], Option.none⟩

/-- The environment of the failing C1 execution: stat and open succeed,
the copy into the pipe fails, the PUT itself reports success. -/
def c1Env : UploadEnv :=
  { statResult := Except.ok ⟨4⟩
    openResult := Except.ok ()
    copyResult := some "stream copy failed"
    httpResult := Except.ok () }

/-- C1: the claim says `UploadImageFile` reads the shared stream-error
slot after the PUT completes and returns a non-nil error whenever the
copy failed.  The code never reads `streamErr`: on an execution where
the copy fails with `"stream copy failed"` while the PUT reports
success, the slot holds the copy error yet `UploadImageFile` returns
success. -/
theorem c1_copy_error_not_surfaced :
    (uploadImageFileOp "http://ep" "img1" "tok" c1Env).streamErrSlot =
      some (some "stream copy failed") ∧
    UploadImageFile "http://ep" "img1" "tok" (fun _ => false)
      (fun _ => c1Env) (Except.ok ()) = Except.ok () :=
  ⟨rfl, rfl⟩

/-- C4: when stat and open succeed, the upload closure issues a PUT to
`{endpoint}/images/{id}/file` whose body is the readable end of the
pipe, whose content length is the stat'd file size, whose content type
is `application/octet-stream`, and whose only accepted status code is
204. -/
theorem c4_upload_request_shape (endpoint imageId token : String)
    (env : UploadEnv) (fi : FileInfo)
    (hstat : env.statResult = Except.ok fi)
    (hopen : env.openResult = Except.ok ()) :
    (uploadImageFileOp endpoint imageId token env).request = some
      { method := "PUT"
        url := endpoint ++ "/images/" ++ imageId ++ "/file"
        headers := [("X-Auth-Token", token)]
        contentType := some "application/octet-stream"
        contentLength := some fi.size
        body := ReqBody.pipeReadEnd
        okCodes := [204]
        resultsField := Option.none } := by
  simp [uploadImageFileOp, hstat, hopen]

/-- C4 witness: the request of a concrete upload of a 10-byte file. -/
theorem c4_upload_request_shape_witness :
    (uploadImageFileOp "http://ep" "img1" "tok"
      ⟨Except.ok ⟨10⟩, Except.ok (), Option.none, Except.ok ()⟩).request = some
      { method := "PUT"
        url := "http://ep" ++ "/images/" ++ "img1" ++ "/file"
        headers := [("X-Auth-Token", "tok")]
        contentType := some "application/octet-stream"
        contentLength := some (10 : Int)
        body := ReqBody.pipeReadEnd
        okCodes := [204]
        resultsField := Option.none } :=
  c4_upload_request_shape "http://ep" "img1" "tok"
    ⟨Except.ok ⟨10⟩, Except.ok (), Option.none, Except.ok ()⟩ ⟨10⟩ rfl rfl

/-- C5: `CreateNewImage` issues a POST to `{endpoint}/images` accepting
only status 201, and the returned id is the last `/`-separated segment
of the response's `Location` path: any path `pre ++ "/" ++ seg` with
`seg` free of `/` yields id `seg`. -/
theorem c5_create_request_and_id_extraction (endpoint token : String)
    (ni : NewImage) (pre seg : String) (h : '/' ∉ seg.data) :
    (CreateNewImage endpoint token ni).method = "POST" ∧
    (CreateNewImage endpoint token ni).url = endpoint ++ "/images" ∧
    (CreateNewImage endpoint token ni).okCodes = [201] ∧
    imageIdFromLocationPath (pre ++ "/" ++ seg) = seg :=
  ⟨rfl, rfl, rfl, imageIdFromLocationPath_append pre seg h⟩

/-- C5 witness: a `Location` path ending in `/images/abc123` yields the
id `abc123`. -/
theorem c5_create_request_and_id_extraction_witness :
    (CreateNewImage "http://ep" "tok" {}).method = "POST" ∧
    (CreateNewImage "http://ep" "tok" {}).url = "http://ep" ++ "/images" ∧
    (CreateNewImage "http://ep" "tok" {}).okCodes = [201] ∧
    imageIdFromLocationPath ("/v2/images" ++ "/" ++ "abc123") = "abc123" :=
  c5_create_request_and_id_extraction "http://ep" "tok" {} "/v2/images"
    "abc123" (by decide)

/-- C6: `ListImages` issues its GET to `endpoint ++ "/images/details"`
exactly when the endpoint ends in `"v1"`, and to
`endpoint ++ "/images"` otherwise, decoding the list from the `Images`
field of the JSON response. -/
theorem c6_list_url_depends_on_v1_suffix (endpoint token : String) :
    ((ListImages endpoint token).url = endpoint ++ "/images/details" ↔
      hasSuffix endpoint "v1" = true) ∧
    (hasSuffix endpoint "v1" = false →
      (ListImages endpoint token).url = endpoint ++ "/images") ∧
    (ListImages endpoint token).method = "GET" ∧
    (ListImages endpoint token).resultsField = some "Images" := by
  refine ⟨?_, ?_, rfl, rfl⟩
  · by_cases hv : hasSuffix endpoint "v1"
    · simp [ListImages, hv]
    · simp only [ListImages, hv, if_false, Bool.false_eq_true, iff_false]
      intro hcontra
      have hdata := congrArg String.data hcontra
      rw [string_data_append, string_data_append] at hdata
      have hsuffix := List.append_cancel_left hdata
      have himpossible : ("/images" : String) = "/images/details" :=
        congrArg String.mk hsuffix
      exact absurd himpossible (by decide)
  · intro hv
    simp [ListImages, hv]

/-- C6 witness: the two urls on concrete endpoints with and without the
`v1` suffix. -/
theorem c6_list_url_depends_on_v1_suffix_witness :
    (ListImages "http://g/v1" "tok").url = "http://g/v1" ++ "/images/details" ∧
    (ListImages "http://g" "tok").url = "http://g" ++ "/images" :=
  ⟨(c6_list_url_depends_on_v1_suffix "http://g/v1" "tok").1.mpr (by decide),
   (c6_list_url_depends_on_v1_suffix "http://g" "tok").2.1 (by decide)⟩

/-- C7: when stat of the local file fails, the upload closure returns
that error at once: no file is opened, no pipe or producer is created,
no request is issued, and (the stat error not being auth-class)
`UploadImageFile` returns exactly that error. -/
theorem c7_stat_failure_fails_fast (endpoint imageId token : String)
    (env : UploadEnv) (e : Err) (hstat : env.statResult = Except.error e)
    (isAuth : Err → Bool) (hauth : isAuth e = false)
    (refresh : Except Err Unit) :
    (uploadImageFileOp endpoint imageId token env).fileOpened = false ∧
    (uploadImageFileOp endpoint imageId token env).pipeCreated = false ∧
    (uploadImageFileOp endpoint imageId token env).request = Option.none ∧
    (uploadImageFileOp endpoint imageId token env).streamErrSlot = Option.none ∧
    (uploadImageFileOp endpoint imageId token env).result = Except.error e ∧
    UploadImageFile endpoint imageId token isAuth (fun _ => env) refresh =
      Except.error e := by
  refine ⟨?_, ?_, ?_, ?_, ?_, ?_⟩ <;>
    simp [uploadImageFileOp, hstat, UploadImageFile, withReauth, classify,
      hauth]

/-- C7 witness: a concrete missing-file error passes straight
through. -/
theorem c7_stat_failure_fails_fast_witness :
    (uploadImageFileOp "http://ep" "img1" "tok"
      ⟨Except.error "no such file", Except.ok (), Option.none,
        Except.ok ()⟩).request = Option.none ∧
    UploadImageFile "http://ep" "img1" "tok" (fun _ => false)
      (fun _ => ⟨Except.error "no such file", Except.ok (), Option.none,
        Except.ok ()⟩) (Except.ok ()) = Except.error "no such file" := by
  have h := c7_stat_failure_fails_fast "http://ep" "img1" "tok"
    ⟨Except.error "no such file", Except.ok (), Option.none, Except.ok ()⟩
    "no such file" rfl (fun _ => false) rfl (Except.ok ())
  exact ⟨h.2.2.1, h.2.2.2.2.2⟩

/-- C8: the Retry Wrapper runs the operation at most twice and issues
at most one refresh; after a first auth-class failure, a successful
refresh leads to exactly one more run whose outcome is returned, and a
failed refresh leads to no second run with the refresh error
returned. -/
theorem c8_retry_wrapper_bounds (R : Type) (op : Nat → OpOutcome R)
    (refresh : Except Err Unit) :
    (withReauth op refresh).2.1 ≤ 2 ∧
    (withReauth op refresh).2.2 ≤ 1 ∧
    (∀ e, op 0 = OpOutcome.authErr e →
      (refresh = Except.ok () →
        (withReauth op refresh).2.1 = 2 ∧
        (withReauth op refresh).2.2 = 1 ∧
        (withReauth op refresh).1 = (op 1).toResult) ∧
      (∀ re, refresh = Except.error re →
        (withReauth op refresh).2.1 = 1 ∧
        (withReauth op refresh).2.2 = 1 ∧
        (withReauth op refresh).1 = Except.error re)) := by
  cases hop : op 0 with
  | ok r => simp [withReauth, hop]
  | otherErr e => simp [withReauth, hop]
  | authErr e =>
    cases hr : refresh with
    | ok u => simp [withReauth, hop, hr]
    | error re => simp [withReauth, hop, hr]

/-- C8 witness: an auth failure followed by a successful refresh runs
the operation twice and returns the second outcome. -/
theorem c8_retry_wrapper_bounds_witness :
    (withReauth (fun n => if n = 0 then
        (OpOutcome.authErr "401" : OpOutcome Unit) else
        OpOutcome.ok ()) (Except.ok ())).2.1 = 2 ∧
    (withReauth (fun n => if n = 0 then
        (OpOutcome.authErr "401" : OpOutcome Unit) else
        OpOutcome.ok ()) (Except.ok ())).2.2 = 1 ∧
    (withReauth (fun n => if n = 0 then
        (OpOutcome.authErr "401" : OpOutcome Unit) else
        OpOutcome.ok ()) (Except.ok ())).1 = Except.ok () :=
  ((c8_retry_wrapper_bounds Unit
      (fun n => if n = 0 then (OpOutcome.authErr "401" : OpOutcome Unit)
        else OpOutcome.ok ())
      (Except.ok ())).2.2 "401" rfl).1 rfl

/-- C9: every public operation attaches a request header
`X-Auth-Token` holding the session's current token at the time the
operation closure runs. -/
theorem c9_auth_token_header (endpoint token id imageId : String)
    (ni : NewImage) (env : UploadEnv) :
    ("X-Auth-Token", token) ∈ (ListImages endpoint token).headers ∧
    ("X-Auth-Token", token) ∈ (ImageById endpoint token id).headers ∧
    ("X-Auth-Token", token) ∈ (CreateNewImage endpoint token ni).headers ∧
    ("X-Auth-Token", token) ∈ (DeleteImageById endpoint token id).headers ∧
    (∀ req, (uploadImageFileOp endpoint imageId token env).request = some req →
      ("X-Auth-Token", token) ∈ req.headers) := by
  refine ⟨by simp [ListImages], by simp [ImageById],
    by simp [CreateNewImage], by simp [DeleteImageById], ?_⟩
  intro req h
  unfold uploadImageFileOp at h
  cases hstat : env.statResult with
  | error e => rw [hstat] at h; simp at h
  | ok fi =>
    rw [hstat] at h
    cases hopen : env.openResult with
    | error e => rw [hopen] at h; simp at h
    | ok u =>
      rw [hopen] at h
      simp only [Option.some.injEq] at h
      rw [← h]
      simp

/-- C9 witness: the header on each concrete request. -/
theorem c9_auth_token_header_witness :
    ("X-Auth-Token", "tok") ∈ (ListImages "http://ep" "tok").headers ∧
    ("X-Auth-Token", "tok") ∈ (ImageById "http://ep" "tok" "i1").headers ∧
    ("X-Auth-Token", "tok") ∈ (CreateNewImage "http://ep" "tok" {}).headers ∧
    ("X-Auth-Token", "tok") ∈ (DeleteImageById "http://ep" "tok" "i1").headers ∧
    ("X-Auth-Token", "tok") ∈
      ({ method := "PUT"
         url := "http://ep" ++ "/images/" ++ "img1" ++ "/file"
         headers := [("X-Auth-Token", "tok")]
         contentType := some "application/octet-stream"
         contentLength := some (7 : Int)
         body := ReqBody.pipeReadEnd
         okCodes := [204]
         resultsField := Option.none } : Request).headers := by
  have h := c9_auth_token_header "http://ep" "tok" "i1" "img1" {}
    ⟨Except.ok ⟨7⟩, Except.ok (), Option.none, Except.ok ()⟩
  exact ⟨h.1, h.2.1, h.2.2.1, h.2.2.2.1, h.2.2.2.2 _ rfl⟩

/-- C10: the id extraction of `CreateNewImage` is total: splitting any
path on `/` yields a non-empty list (so taking the last element never
indexes out of bounds), a path ending in `/` yields the empty string,
and a path with no `/` yields the whole path. -/
theorem c10_id_extraction_total (path p : String) :
    goSplit '/' path.data ≠ [] ∧
    imageIdFromLocationPath (p ++ "/") = "" ∧
    ('/' ∉ path.data → imageIdFromLocationPath path = path) :=
  ⟨goSplit_ne_nil '/' path.data, imageIdFromLocationPath_trailing p,
   imageIdFromLocationPath_no_sep path⟩

/-- C10 witness: the three facts on concrete paths. -/
theorem c10_id_extraction_total_witness :
    goSplit '/' ("abc123" : String).data ≠ [] ∧
    imageIdFromLocationPath ("/v2/images" ++ "/") = "" ∧
    imageIdFromLocationPath "abc123" = "abc123" := by
  have h := c10_id_extraction_total "abc123" "/v2/images"
  exact ⟨h.1, h.2.1, h.2.2 (by decide)⟩

end Images
